import Mathlib

/-!
Shallow embedding of the NEVERHANG core of `postgres-mcp`
(`src/neverhang.ts`): configuration, failure taxonomy, health monitor,
circuit breaker, adaptive timeout planner, and the manager facade.
Times are modelled as integer milliseconds (`Int`), counters as `Nat`,
the multiplier arithmetic of the timeout planner as exact rationals.
TypeScript `Date` values are modelled by their epoch-millisecond value,
passed explicitly as a `now` parameter to each stateful operation.
-/

namespace Neverhang

/-- Health classification, `HealthStatus` in `neverhang.ts`. -/
inductive HealthStatus where
  | healthy
  | degraded
  | unhealthy
deriving DecidableEq, Repr

/-- Circuit classification, `CircuitState` in `neverhang.ts`.
`opened` stands for the source's `"open"` (a Lean keyword) and
`halfOpen` for `"half-open"`. -/
inductive CircuitState where
  | closed
  | opened
  | halfOpen
deriving DecidableEq, Repr

/-- `NeverhangConfig` from `neverhang.ts`, all fields. -/
structure NeverhangConfig where
  base_timeout_ms : Int
  connection_timeout_ms : Int
  health_check_timeout_ms : Int
  max_connections : Nat
  min_connections : Nat
  connection_ttl_ms : Int
  idle_timeout_ms : Int
  validate_on_borrow : Bool
  circuit_failure_threshold : Nat
  circuit_failure_window_ms : Int
  circuit_open_duration_ms : Int
  circuit_recovery_threshold : Nat
  health_check_interval_ms : Int
  health_degraded_interval_ms : Int
  adaptive_timeout : Bool
  min_timeout_ms : Int
  max_timeout_ms : Int
deriving DecidableEq, Repr

/-- `DEFAULT_NEVERHANG_CONFIG` from `neverhang.ts`. -/
def DEFAULT_NEVERHANG_CONFIG : NeverhangConfig where
  base_timeout_ms := 10000
  connection_timeout_ms := 2000
  health_check_timeout_ms := 2000
  max_connections := 5
  min_connections := 1
  connection_ttl_ms := 300000
  idle_timeout_ms := 60000
  validate_on_borrow := true
  circuit_failure_threshold := 5
  circuit_failure_window_ms := 60000
  circuit_open_duration_ms := 30000
  circuit_recovery_threshold := 2
  health_check_interval_ms := 30000
  health_degraded_interval_ms := 5000
  adaptive_timeout := true
  min_timeout_ms := 2000
  max_timeout_ms := 30000

/-- `FailureType` from `neverhang.ts`. -/
inductive FailureType where
  | timeout
  | connection_failed
  | pool_exhausted
  | circuit_open
  | query_error
  | permission_denied
  | cancelled
deriving DecidableEq, Repr

/-- `NeverhangError.getSuggestion` from `neverhang.ts`. -/
def getSuggestion : FailureType → String
  | .timeout => "Consider adding indexes, limiting scope, or increasing timeout."
  | .connection_failed => "Check network connectivity and database availability."
  | .pool_exhausted => "All connections busy. Try again shortly."
  | .circuit_open => "Database marked unhealthy. Automatic retry pending."
  | .query_error => "Check SQL syntax and constraints."
  | .permission_denied => "Verify database credentials and permissions."
  | .cancelled => "Query was cancelled."

/-- The data carried by a `NeverhangError` instance. -/
structure NeverhangError where
  type : FailureType
  message : String
  duration_ms : Int
  retryable : Bool
  suggestion : String
deriving DecidableEq, Repr

/-- The `NeverhangError` constructor from `neverhang.ts`:
`retryable = type !== "permission_denied" && type !== "query_error"`,
suggestion looked up from the kind. -/
def mkNeverhangError (type : FailureType) (message : String) (duration_ms : Int) :
    NeverhangError where
  type := type
  message := message
  duration_ms := duration_ms
  retryable := !(type == .permission_denied) && !(type == .query_error)
  suggestion := getSuggestion type

/-! ### Query shape detection (`AdaptiveTimeout.analyzeQuery`)

The source tests JavaScript regexes over the upper-cased query text.
We embed them over `List Char`: `\b` is a word boundary with
`\w = [A-Za-z0-9_]`, `\s*` before a non-space literal is exactly
`dropWhile` of whitespace, and a `/g` match count of `\bFROM\b` equals
the number of start positions at which the bounded word matches
(matches of a word bounded on both sides can never overlap). -/

/-- JavaScript `\w`: ASCII letters, digits, underscore. -/
def isWordChar (c : Char) : Bool :=
  c.isAlphanum || c == '_'

/-- ASCII part of JavaScript `\s`. -/
def isSpaceChar (c : Char) : Bool :=
  c == ' ' || c == '\t' || c == '\n' || c == '\r' || c == '\x0b' || c == '\x0c'

/-- `String.prototype.toUpperCase` on ASCII text. -/
def jsUpper (s : List Char) : List Char :=
  s.map Char.toUpper

/-- `pat` occurs literally in `s` starting at index `i`. -/
def sublistAt (s pat : List Char) (i : Nat) : Bool :=
  (s.drop i).take pat.length == pat

/-- Plain substring containment, `String.prototype.includes`. -/
def containsSub (s pat : List Char) : Bool :=
  (List.range (s.length + 1)).any (sublistAt s pat)

/-- A match of `\b pat \b` at index `i`, for a pattern whose first and
last characters are word characters: the literal occurs at `i`, the
character before (if any) is not a word character, and neither is the
character just past the match. -/
def wordMatchAt (s pat : List Char) (i : Nat) : Bool :=
  sublistAt s pat i &&
    (i == 0 || !(isWordChar (s.getD (i - 1) ' '))) &&
    !(isWordChar (s.getD (i + pat.length) ' '))

/-- `regex.test` for `\b pat \b`. -/
def testWord (s pat : List Char) : Bool :=
  (List.range (s.length + 1)).any (wordMatchAt s pat)

/-- `match(/\b pat \b/g).length`: the number of start positions. -/
def countWord (s pat : List Char) : Nat :=
  (List.range (s.length + 1)).countP (wordMatchAt s pat)

/-- After a `(`: `\s*SELECT\b`.  Since `SELECT` starts with a non-space
character, the greedy `\s*` consumes exactly the leading whitespace. -/
def selectAfterSpaces (l : List Char) : Bool :=
  let r := l.dropWhile isSpaceChar
  (r.take 6 == "SELECT".data) && !(isWordChar (r.getD 6 ' '))

/-- A match of `\(\s*SELECT\b` starting at index `i`. -/
def subqueryAt (s : List Char) (i : Nat) : Bool :=
  (s.getD i ' ' == '(') && selectAfterSpaces (s.drop (i + 1))

/-- `regex.test` for `\(\s*SELECT\b`. -/
def testSubquery (s : List Char) : Bool :=
  (List.range s.length).any (subqueryAt s)

/-- The alternatives of `\b(COUNT|SUM|AVG|MAX|MIN|GROUP BY)\b`. -/
def aggPatterns : List (List Char) :=
  ["COUNT".data, "SUM".data, "AVG".data, "MAX".data, "MIN".data, "GROUP BY".data]

/-- `QueryComplexity` from `neverhang.ts`. -/
structure QueryComplexity where
  has_join : Bool
  has_subquery : Bool
  table_count : Nat
  has_aggregation : Bool
  is_explain_analyze : Bool
deriving DecidableEq, Repr

/-- `AdaptiveTimeout.analyzeQuery` from `neverhang.ts`. -/
def analyzeQuery (query : String) : QueryComplexity :=
  let upper := jsUpper query.data
  { has_join := testWord upper "JOIN".data
    has_subquery := testSubquery upper
    table_count := countWord upper "FROM".data
    has_aggregation := aggPatterns.any (testWord upper)
    is_explain_analyze := containsSub upper "EXPLAIN".data && containsSub upper "ANALYZE".data }

/-! ### Adaptive timeout planner (`AdaptiveTimeout.getTimeout`) -/

/-- Result record of `AdaptiveTimeout.getTimeout`. -/
structure TimeoutResult where
  timeout_ms : Int
  reason : String
deriving DecidableEq, Repr

/-- JavaScript `Math.round`: half-up rounding, `⌊x + 1/2⌋`. -/
def jsRound (x : ℚ) : Int :=
  ⌊x + 1 / 2⌋

/-- `AdaptiveTimeout.getTimeout` from `neverhang.ts`.  The multiplier
is exact rational arithmetic; the user override and the config fields
are integer milliseconds. -/
def getTimeout (cfg : NeverhangConfig) (query : String) (healthStatus : HealthStatus)
    (userOverride : Option Int) : TimeoutResult :=
  match userOverride with
  | some o =>
    let capped := min (max o cfg.min_timeout_ms) cfg.max_timeout_ms
    { timeout_ms := capped
      reason := "user override (capped to " ++ toString capped ++ "ms)" }
  | none =>
    if !cfg.adaptive_timeout then
      { timeout_ms := cfg.base_timeout_ms, reason := "adaptive disabled" }
    else
      let complexity := analyzeQuery query
      let step1 : ℚ × List String :=
        if complexity.is_explain_analyze then
          (3, ["EXPLAIN ANALYZE (3x)"])
        else
          let a : ℚ × List String :=
            if complexity.has_join then (3 / 2, ["JOIN (1.5x)"]) else (1, [])
          let b : ℚ × List String :=
            if complexity.has_subquery then (2, ["subquery (2x)"]) else (1, [])
          let c : ℚ × List String :=
            if complexity.table_count > 1 then
              (3 / 2, [toString complexity.table_count ++ " tables (1.5x)"])
            else (1, [])
          let d : ℚ × List String :=
            if complexity.has_aggregation then (3 / 2, ["aggregation (1.5x)"]) else (1, [])
          (a.1 * b.1 * c.1 * d.1, a.2 ++ b.2 ++ c.2 ++ d.2)
      let step2 : ℚ × List String :=
        match healthStatus with
        | .healthy => step1
        | .degraded => (step1.1 * (1 / 2), step1.2 ++ ["degraded health (0.5x)"])
        | .unhealthy => (step1.1 * (1 / 4), step1.2 ++ ["unhealthy (0.25x)"])
      let raw : ℚ := (cfg.base_timeout_ms : ℚ) * step2.1
      let clamped : ℚ := min (max raw (cfg.min_timeout_ms : ℚ)) (cfg.max_timeout_ms : ℚ)
      { timeout_ms := jsRound clamped
        reason := if step2.2.length > 0 then String.intercalate ", " step2.2 else "base timeout" }

/-! ### Circuit breaker (`CircuitBreaker`) -/

/-- `CircuitBreakerState` from `neverhang.ts`; `opened_at` is the
epoch-millisecond value of the `Date`. -/
structure CircuitBreakerState where
  state : CircuitState
  failures : List Int
  opened_at : Option Int
  half_open_successes : Nat
deriving DecidableEq, Repr

/-- The state the `CircuitBreaker` constructor installs. -/
def initCircuit : CircuitBreakerState where
  state := .closed
  failures := []
  opened_at := none
  half_open_successes := 0

/-- `CircuitBreaker.cleanOldFailures`: keep timestamps strictly newer
than `now - circuit_failure_window_ms`. -/
def cleanOldFailures (cfg : NeverhangConfig) (now : Int) (s : CircuitBreakerState) :
    CircuitBreakerState :=
  { s with failures := s.failures.filter fun t => decide (now - cfg.circuit_failure_window_ms < t) }

/-- `CircuitBreaker.canExecute`: returns the boolean result and the
(possibly mutated) state. -/
def canExecute (cfg : NeverhangConfig) (now : Int) (s : CircuitBreakerState) :
    Bool × CircuitBreakerState :=
  let s := cleanOldFailures cfg now s
  match s.state with
  | .closed => (true, s)
  | .opened =>
    match s.opened_at with
    | some t =>
      if cfg.circuit_open_duration_ms ≤ now - t then
        (true, { s with state := .halfOpen, half_open_successes := 0 })
      else
        (false, s)
    | none => (false, s)
  | .halfOpen => (true, s)

/-- `CircuitBreaker.recordSuccess`. -/
def recordSuccess (cfg : NeverhangConfig) (s : CircuitBreakerState) : CircuitBreakerState :=
  if s.state = .halfOpen then
    let n := s.half_open_successes + 1
    if cfg.circuit_recovery_threshold ≤ n then
      { state := .closed, failures := [], opened_at := none, half_open_successes := n }
    else
      { s with half_open_successes := n }
  else
    s

/-- `CircuitBreaker.recordFailure`. -/
def recordFailure (cfg : NeverhangConfig) (excludeFromCircuit : Bool) (now : Int)
    (s : CircuitBreakerState) : CircuitBreakerState :=
  if excludeFromCircuit then
    s
  else
    let s := cleanOldFailures cfg now { s with failures := s.failures ++ [now] }
    match s.state with
    | .halfOpen => { s with state := .opened, opened_at := some now }
    | .closed =>
      if cfg.circuit_failure_threshold ≤ s.failures.length then
        { s with state := .opened, opened_at := some now }
      else
        s
    | .opened => s

/-- `CircuitBreaker.getTimeUntilHalfOpen`. -/
def getTimeUntilHalfOpen (cfg : NeverhangConfig) (now : Int) (s : CircuitBreakerState) :
    Option Int :=
  match s.state, s.opened_at with
  | .opened, some t => some (max 0 (cfg.circuit_open_duration_ms - (now - t)))
  | _, _ => none

/-! ### Health monitor (`HealthMonitor`) -/

/-- `HealthState` from `neverhang.ts`; `Date` values are epoch
milliseconds. -/
structure HealthState where
  status : HealthStatus
  last_check : Option Int
  last_success : Option Int
  last_failure : Option Int
  latency_ms : Int
  latency_samples : List Int
  consecutive_failures : Nat
  consecutive_successes : Nat
deriving DecidableEq, Repr

/-- The state the `HealthMonitor` constructor installs. -/
def initHealth : HealthState where
  status := .healthy
  last_check := none
  last_success := none
  last_failure := none
  latency_ms := 0
  latency_samples := []
  consecutive_failures := 0
  consecutive_successes := 0

/-- `HealthMonitor.recordSuccess`: counters are updated before the
status transition is evaluated, and the rolling sample keeps at most
the last 10 latencies (`shift` after `push`). -/
def healthRecordSuccess (now latency : Int) (s : HealthState) : HealthState :=
  let cs := s.consecutive_successes + 1
  let pushed := s.latency_samples ++ [latency]
  let samples := if pushed.length > 10 then pushed.tail else pushed
  let status :=
    if s.status = .unhealthy ∧ 1 ≤ cs then HealthStatus.degraded
    else if s.status = .degraded ∧ 3 ≤ cs then HealthStatus.healthy
    else s.status
  { status := status
    last_check := some now
    last_success := some now
    last_failure := s.last_failure
    latency_ms := latency
    latency_samples := samples
    consecutive_failures := 0
    consecutive_successes := cs }

/-- `HealthMonitor.recordFailure`. -/
def healthRecordFailure (now : Int) (s : HealthState) : HealthState :=
  let cf := s.consecutive_failures + 1
  let status :=
    if s.status = .healthy ∧ 1 ≤ cf then HealthStatus.degraded
    else if s.status = .degraded ∧ 3 ≤ cf then HealthStatus.unhealthy
    else s.status
  { s with
    status := status
    last_check := some now
    last_failure := some now
    consecutive_failures := cf
    consecutive_successes := 0 }

/-! ### Manager facade (`NeverhangManager`) -/

/-- `NeverhangManager.isExcludedFromCircuit`. -/
def isExcludedFromCircuit (query : String) : Bool :=
  (analyzeQuery query).is_explain_analyze

/-- The effect of `NeverhangManager.recordFailure(query)` on the
circuit breaker (the manager additionally increments its
`totalQueries` counter, which does not touch the breaker). -/
def managerRecordFailure (cfg : NeverhangConfig) (query : String) (now : Int)
    (cb : CircuitBreakerState) : CircuitBreakerState :=
  recordFailure cfg (isExcludedFromCircuit query) now cb

/-- `Math.ceil((timeLeft || 0) / 1000)` for the nonnegative
`timeLeft` produced by `getTimeUntilHalfOpen` (`none` maps to 0). -/
def jsCeilDiv1000 (v : Option Int) : Nat :=
  ((v.getD 0).toNat + 999) / 1000

/-- `NeverhangManager.canExecute`: result `(allowed, reason?)` plus the
possibly mutated breaker state. -/
def managerCanExecute (cfg : NeverhangConfig) (now : Int) (cb : CircuitBreakerState) :
    (Bool × Option String) × CircuitBreakerState :=
  let r := canExecute cfg now cb
  if r.1 then
    ((true, none), r.2)
  else
    let timeLeft := getTimeUntilHalfOpen cfg now r.2
    ((false, some ("Circuit open. Retry in " ++ toString (jsCeilDiv1000 timeLeft) ++ "s")), r.2)

/-! ## Helper definitions and lemmas for the claim theorems -/

/-- The allowed transition edges of the circuit classification:
stay put, closed → open, open → half-open, half-open → closed,
half-open → open. -/
def stepEdgeOK (a b : CircuitState) : Prop :=
  a = b ∨ (a = .closed ∧ b = .opened) ∨ (a = .opened ∧ b = .halfOpen) ∨
    (a = .halfOpen ∧ b = .closed) ∨ (a = .halfOpen ∧ b = .opened)

/-- Numeric rank of the health classification, used to state
adjacency of transitions. -/
def healthRank : HealthStatus → Nat
  | .healthy => 0
  | .degraded => 1
  | .unhealthy => 2

/-- The default configuration with the adaptive planner switched off. -/
def cfgNoAdaptive : NeverhangConfig :=
  { DEFAULT_NEVERHANG_CONFIG with adaptive_timeout := false }

/-- The default configuration with the adaptive planner switched off
and a base timeout above the `max_timeout_ms` clamp. -/
def cfgBigBase : NeverhangConfig :=
  { DEFAULT_NEVERHANG_CONFIG with adaptive_timeout := false, base_timeout_ms := 50000 }

/-- Rounding a value clamped into `[a, b]` (integer bounds) stays in
`[a, b]`. -/
theorem jsRound_clamp_bounds (a b : Int) (x : ℚ) (hab : a ≤ b) :
    a ≤ jsRound (min (max x (a : ℚ)) (b : ℚ)) ∧ jsRound (min (max x (a : ℚ)) (b : ℚ)) ≤ b := by
  have hy1 : (a : ℚ) ≤ min (max x (a : ℚ)) (b : ℚ) :=
    le_min (le_max_right _ _) (by exact_mod_cast hab)
  have hy2 : min (max x (a : ℚ)) (b : ℚ) ≤ (b : ℚ) := min_le_right _ _
  constructor
  · rw [jsRound]
    refine Int.le_floor.mpr ?_
    linarith
  · rw [jsRound]
    refine Int.lt_add_one_iff.mp (Int.floor_lt.mpr ?_)
    push_cast
    linarith

/-- Recording a monotone run of failures that all lie inside one
failure window, fewer than the threshold, starting from the initial
state, keeps the breaker closed and accumulates exactly those
timestamps. -/
theorem foldRecord_closed (cfg : NeverhangConfig) (ts : List Int)
    (hw : 0 < cfg.circuit_failure_window_ms)
    (hp : ts.Pairwise fun a b => a ≤ b ∧ b - a < cfg.circuit_failure_window_ms)
    (hlen : ts.length < cfg.circuit_failure_threshold) :
    ts.foldl (fun s t => recordFailure cfg false t s) initCircuit =
      { state := .closed, failures := ts, opened_at := none, half_open_successes := 0 } := by
  induction ts using List.reverseRecOn with
  | nil => rfl
  | append_singleton l a ih =>
    rw [List.pairwise_append] at hp
    obtain ⟨hpl, -, hcross⟩ := hp
    have hlen' : l.length < cfg.circuit_failure_threshold := by
      simp only [List.length_append, List.length_singleton] at hlen; omega
    rw [List.foldl_append, ih hpl hlen']
    have hk1 : l.filter (fun t => decide (a - cfg.circuit_failure_window_ms < t)) = l := by
      apply List.filter_eq_self.mpr
      intro x hx
      have hxa := hcross x hx a (by simp)
      simp only [decide_eq_true_eq]
      omega
    have haa : a - cfg.circuit_failure_window_ms < a := by omega
    have hnotrip : ¬ cfg.circuit_failure_threshold ≤ l.length + 1 := by
      simp only [List.length_append, List.length_singleton] at hlen
      omega
    simp [recordFailure, cleanOldFailures, hk1, haa, hnotrip]

/-! ## Claim theorems -/

/-- C1 counterexample: with adaptive timeouts disabled and a base
timeout of 50000 ms against clamps `[2000, 30000]`, `getTimeout`
returns 50000 ms, outside `[min_timeout_ms, max_timeout_ms]` — so the
deadline does not lie in the interval for every configuration. -/
theorem getTimeout_bounds_cex :
    (getTimeout cfgBigBase "SELECT 1" .healthy none).timeout_ms = 50000 ∧
    ¬ (getTimeout cfgBigBase "SELECT 1" .healthy none).timeout_ms ≤ cfgBigBase.max_timeout_ms :=
  ⟨rfl, by decide⟩

/-- C1 (amended): for every query, health classification and optional
user override, and every configuration whose base timeout lies within
the clamps (`min_timeout_ms ≤ base_timeout_ms ≤ max_timeout_ms`), the
deadline returned by `getTimeout` lies in
`[min_timeout_ms, max_timeout_ms]`, including when `adaptive_timeout`
is false. -/
theorem getTimeout_bounds (cfg : NeverhangConfig) (q : String) (h : HealthStatus)
    (o : Option Int)
    (hlo : cfg.min_timeout_ms ≤ cfg.base_timeout_ms)
    (hhi : cfg.base_timeout_ms ≤ cfg.max_timeout_ms) :
    cfg.min_timeout_ms ≤ (getTimeout cfg q h o).timeout_ms ∧
    (getTimeout cfg q h o).timeout_ms ≤ cfg.max_timeout_ms := by
  have hmm : cfg.min_timeout_ms ≤ cfg.max_timeout_ms := hlo.trans hhi
  rcases o with _ | v
  · by_cases hd : cfg.adaptive_timeout
    · simp only [getTimeout, hd, Bool.not_true, Bool.false_eq_true, if_false]
      exact jsRound_clamp_bounds cfg.min_timeout_ms cfg.max_timeout_ms _ hmm
    · simp only [Bool.not_eq_true] at hd
      simp only [getTimeout, hd, Bool.not_false, if_true]
      exact ⟨hlo, hhi⟩
  · simp only [getTimeout]
    exact ⟨le_min (le_max_right _ _) hmm, min_le_right _ _⟩

/-- C1 witness: the amended bound theorem applied to the default
configuration and a simple query. -/
theorem getTimeout_bounds_witness :
    DEFAULT_NEVERHANG_CONFIG.min_timeout_ms ≤ DEFAULT_NEVERHANG_CONFIG.base_timeout_ms ∧
    DEFAULT_NEVERHANG_CONFIG.base_timeout_ms ≤ DEFAULT_NEVERHANG_CONFIG.max_timeout_ms ∧
    (DEFAULT_NEVERHANG_CONFIG.min_timeout_ms ≤
        (getTimeout DEFAULT_NEVERHANG_CONFIG "SELECT 1" .healthy none).timeout_ms ∧
      (getTimeout DEFAULT_NEVERHANG_CONFIG "SELECT 1" .healthy none).timeout_ms ≤
        DEFAULT_NEVERHANG_CONFIG.max_timeout_ms) :=
  ⟨by decide, by decide,
   getTimeout_bounds DEFAULT_NEVERHANG_CONFIG "SELECT 1" .healthy none (by decide) (by decide)⟩

/-- C2: every mutation of the circuit breaker state — `canExecute`,
`recordSuccess`, `recordFailure`, and window pruning — either leaves
the classification unchanged or moves it along one of the four edges
closed → open, open → half-open, half-open → closed,
half-open → open; in particular no single step takes the state from
open directly to closed. -/
theorem circuit_edges (cfg : NeverhangConfig) (now : Int) (excl : Bool)
    (s : CircuitBreakerState) :
    stepEdgeOK s.state (canExecute cfg now s).2.state ∧
    stepEdgeOK s.state (recordSuccess cfg s).state ∧
    stepEdgeOK s.state (recordFailure cfg excl now s).state ∧
    (cleanOldFailures cfg now s).state = s.state ∧
    (s.state = .opened →
      (canExecute cfg now s).2.state ≠ .closed ∧
      (recordSuccess cfg s).state ≠ .closed ∧
      (recordFailure cfg excl now s).state ≠ .closed) := by
  refine ⟨?_, ?_, ?_, rfl, ?_⟩
  · rcases hs : s.state <;>
      simp [canExecute, cleanOldFailures, hs, stepEdgeOK] <;>
      rcases s.opened_at with _ | t <;> simp <;> split <;> simp
  · rcases hs : s.state <;> simp [recordSuccess, hs, stepEdgeOK] <;> split <;> simp
  · rcases hs : s.state <;> rcases excl <;>
      simp [recordFailure, cleanOldFailures, hs, stepEdgeOK] <;> split <;> simp
  · intro hs
    refine ⟨?_, ?_, ?_⟩
    · simp [canExecute, cleanOldFailures, hs]
      rcases s.opened_at with _ | t <;> simp <;> split <;> simp
    · simp [recordSuccess, hs]
    · rcases excl <;> simp [recordFailure, cleanOldFailures, hs]

/-- C2 witness: from an open state, a recorded failure does not land
on closed. -/
theorem circuit_edges_witness :
    (recordFailure DEFAULT_NEVERHANG_CONFIG false 0
        { state := .opened, failures := [], opened_at := some 0,
          half_open_successes := 0 }).state ≠ .closed :=
  ((circuit_edges DEFAULT_NEVERHANG_CONFIG 0 false
      { state := .opened, failures := [], opened_at := some 0,
        half_open_successes := 0 }).2.2.2.2 rfl).2.2

/-- C3: for every query whose upper-cased text contains both
"EXPLAIN" and "ANALYZE" (in particular every query containing both as
tokens), the manager's `recordFailure` leaves the circuit breaker
state — including its failure-timestamp sequence — unchanged,
whatever the circuit state was. -/
theorem explain_analyze_excluded (cfg : NeverhangConfig) (q : String) (now : Int)
    (cb : CircuitBreakerState)
    (hE : containsSub (jsUpper q.data) "EXPLAIN".data = true)
    (hA : containsSub (jsUpper q.data) "ANALYZE".data = true) :
    managerRecordFailure cfg q now cb = cb := by
  have hx : isExcludedFromCircuit q = true := by
    simp [isExcludedFromCircuit, analyzeQuery, hE, hA]
  simp [managerRecordFailure, recordFailure, hx]

/-- C3 witness: the exclusion theorem at the concrete query
"EXPLAIN ANALYZE SELECT * FROM big" and the initial breaker state. -/
theorem explain_analyze_excluded_witness :
    containsSub (jsUpper ("EXPLAIN ANALYZE SELECT * FROM big").data) "EXPLAIN".data = true ∧
    containsSub (jsUpper ("EXPLAIN ANALYZE SELECT * FROM big").data) "ANALYZE".data = true ∧
    managerRecordFailure DEFAULT_NEVERHANG_CONFIG "EXPLAIN ANALYZE SELECT * FROM big" 0
        initCircuit = initCircuit :=
  ⟨by decide, by decide,
   explain_analyze_excluded DEFAULT_NEVERHANG_CONFIG _ 0 initCircuit (by decide) (by decide)⟩

/-- C4: starting from a closed circuit with an empty failure window,
recording K non-excluded failures inside the failure window with
K < threshold leaves the circuit closed (with `opened_at` still null);
the failure that makes the pruned window length reach the threshold
transitions the circuit to open in that single step and sets
`opened_at` to the failure time. -/
theorem circuit_threshold_trip (cfg : NeverhangConfig) (ts : List Int) (t' : Int)
    (hw : 0 < cfg.circuit_failure_window_ms)
    (hp : (ts ++ [t']).Pairwise fun a b => a ≤ b ∧ b - a < cfg.circuit_failure_window_ms) :
    (ts.length < cfg.circuit_failure_threshold →
      ts.foldl (fun s t => recordFailure cfg false t s) initCircuit =
        { state := .closed, failures := ts, opened_at := none, half_open_successes := 0 }) ∧
    (ts.length + 1 = cfg.circuit_failure_threshold →
      recordFailure cfg false t'
          (ts.foldl (fun s t => recordFailure cfg false t s) initCircuit) =
        { state := .opened, failures := ts ++ [t'], opened_at := some t',
          half_open_successes := 0 }) := by
  rw [List.pairwise_append] at hp
  obtain ⟨hpl, -, hcross⟩ := hp
  constructor
  · intro hlen
    exact foldRecord_closed cfg ts hw hpl hlen
  · intro hlen
    rw [foldRecord_closed cfg ts hw hpl (by omega)]
    have hk1 : ts.filter (fun t => decide (t' - cfg.circuit_failure_window_ms < t)) = ts := by
      apply List.filter_eq_self.mpr
      intro x hx
      have hxa := hcross x hx t' (by simp)
      simp only [decide_eq_true_eq]
      omega
    have haa : t' - cfg.circuit_failure_window_ms < t' := by omega
    have htrip : cfg.circuit_failure_threshold ≤ ts.length + 1 := by omega
    simp [recordFailure, cleanOldFailures, hk1, haa, htrip]

/-- C4 witness: with the default threshold of 5, four failures keep
the breaker closed and the fifth opens it, recording `opened_at`. -/
theorem circuit_threshold_trip_witness :
    ([(0:Int), 1, 2, 3].foldl (fun s t => recordFailure DEFAULT_NEVERHANG_CONFIG false t s)
        initCircuit =
      { state := .closed, failures := [0, 1, 2, 3], opened_at := none,
        half_open_successes := 0 }) ∧
    (recordFailure DEFAULT_NEVERHANG_CONFIG false 4
        ([(0:Int), 1, 2, 3].foldl (fun s t => recordFailure DEFAULT_NEVERHANG_CONFIG false t s)
          initCircuit) =
      { state := .opened, failures := [0, 1, 2, 3, 4], opened_at := some 4,
        half_open_successes := 0 }) := by
  have h := circuit_threshold_trip DEFAULT_NEVERHANG_CONFIG [0, 1, 2, 3] 4
    (by decide) (by decide)
  exact ⟨h.1 (by decide), h.2 (by decide)⟩

/-- C5: when the circuit is open, `canExecute` first prunes failure
entries older than the failure window; if
`circuit_open_duration_ms ≤ now - opened_at` (the boundary included)
it transitions to half-open and returns true, otherwise it returns
false and the manager reports
"Circuit open. Retry in Ns" with N the rounded-up remaining seconds. -/
theorem open_circuit_probe (cfg : NeverhangConfig) (now t : Int) (s : CircuitBreakerState)
    (hs : s.state = .opened) (ho : s.opened_at = some t) :
    (canExecute cfg now s).2.failures =
      s.failures.filter (fun x => decide (now - cfg.circuit_failure_window_ms < x)) ∧
    (cfg.circuit_open_duration_ms ≤ now - t →
      (canExecute cfg now s).1 = true ∧ (canExecute cfg now s).2.state = .halfOpen) ∧
    (now - t < cfg.circuit_open_duration_ms →
      (canExecute cfg now s).1 = false ∧ (canExecute cfg now s).2.state = .opened ∧
      (managerCanExecute cfg now s).1 = (false,
        some ("Circuit open. Retry in " ++
          toString (((cfg.circuit_open_duration_ms - (now - t)).toNat + 999) / 1000) ++ "s"))) := by
  by_cases hc : cfg.circuit_open_duration_ms ≤ now - t
  · refine ⟨?_, fun _ => ⟨?_, ?_⟩, fun hlt => absurd hc (not_le.mpr hlt)⟩
    · simp [canExecute, cleanOldFailures, hs, ho, hc]
    · simp [canExecute, cleanOldFailures, hs, ho, hc]
    · simp [canExecute, cleanOldFailures, hs, ho, hc]
  · have hmax : max 0 (cfg.circuit_open_duration_ms - (now - t)) =
        cfg.circuit_open_duration_ms - (now - t) :=
      max_eq_right (by omega)
    refine ⟨?_, fun hge => absurd hge hc, fun _ => ⟨?_, ?_, ?_⟩⟩
    · simp [canExecute, cleanOldFailures, hs, ho, hc]
    · simp [canExecute, cleanOldFailures, hs, ho, hc]
    · simp [canExecute, cleanOldFailures, hs, ho, hc]
    · simp [managerCanExecute, canExecute, cleanOldFailures, getTimeUntilHalfOpen,
            jsCeilDiv1000, hs, ho, hc, hmax]

/-- C5 witness: a breaker opened at time 0 and queried at time 1000
(29000 ms early) refuses the call, and the manager's reason reads
"Circuit open. Retry in 29s". -/
theorem open_circuit_probe_witness :
    (canExecute DEFAULT_NEVERHANG_CONFIG 1000
        { state := .opened, failures := [], opened_at := some 0,
          half_open_successes := 0 }).1 = false ∧
    (managerCanExecute DEFAULT_NEVERHANG_CONFIG 1000
        { state := .opened, failures := [], opened_at := some 0,
          half_open_successes := 0 }).1 =
      (false, some "Circuit open. Retry in 29s") := by
  have h := open_circuit_probe DEFAULT_NEVERHANG_CONFIG 1000 0
    { state := .opened, failures := [], opened_at := some 0, half_open_successes := 0 }
    rfl rfl
  have h3 := h.2.2 (by decide)
  exact ⟨h3.1, h3.2.2.trans (by decide)⟩

/-- C6: every probe outcome moves the health classification by at
most one adjacent step, and the thresholds match the source: a
success takes unhealthy to degraded immediately and degraded to
healthy exactly when the consecutive-success count reaches 3; a
failure takes healthy to degraded immediately and degraded to
unhealthy exactly when the consecutive-failure count reaches 3. -/
theorem health_adjacent (s : HealthState) (now lat : Int) :
    Nat.dist (healthRank s.status) (healthRank (healthRecordSuccess now lat s).status) ≤ 1 ∧
    Nat.dist (healthRank s.status) (healthRank (healthRecordFailure now s).status) ≤ 1 ∧
    (s.status = .unhealthy → (healthRecordSuccess now lat s).status = .degraded) ∧
    (s.status = .degraded →
      ((healthRecordSuccess now lat s).status = .healthy ↔ 3 ≤ s.consecutive_successes + 1)) ∧
    (s.status = .healthy → (healthRecordFailure now s).status = .degraded) ∧
    (s.status = .degraded →
      ((healthRecordFailure now s).status = .unhealthy ↔ 3 ≤ s.consecutive_failures + 1)) := by
  rcases hs : s.status
  · simp_all [healthRecordSuccess, healthRecordFailure, healthRank, Nat.dist]
  · rcases Nat.lt_or_ge s.consecutive_successes 2 with h1 | h1 <;>
      rcases Nat.lt_or_ge s.consecutive_failures 2 with h2 | h2
    · simp_all [healthRecordSuccess, healthRecordFailure, healthRank, Nat.dist,
        not_le.mpr h1, not_le.mpr h2]
    · simp_all [healthRecordSuccess, healthRecordFailure, healthRank, Nat.dist,
        not_le.mpr h1, h2]
    · simp_all [healthRecordSuccess, healthRecordFailure, healthRank, Nat.dist,
        h1, not_le.mpr h2]
    · simp_all [healthRecordSuccess, healthRecordFailure, healthRank, Nat.dist, h1, h2]
  · simp_all [healthRecordSuccess, healthRecordFailure, healthRank, Nat.dist]

/-- C6 witness: a degraded monitor with two prior consecutive
successes becomes healthy on the third. -/
theorem health_adjacent_witness :
    (healthRecordSuccess 0 5
        { initHealth with status := .degraded, consecutive_successes := 2 }).status =
      .healthy := by
  have h := health_adjacent
    { initHealth with status := .degraded, consecutive_successes := 2 } 0 5
  exact (h.2.2.2.1 rfl).mpr (by decide)

/-- C7: with the default configuration, degraded health and no
override, the planner returns exactly 7500 ms
(10000 × 1.5 × 0.5) on the JOIN query, and the reason contains
"JOIN (1.5x)" and "degraded health (0.5x)". -/
theorem degraded_join_scenario :
    (getTimeout DEFAULT_NEVERHANG_CONFIG
        "SELECT a.id FROM a JOIN b ON a.k=b.k WHERE a.x=1" .degraded none).timeout_ms = 7500 ∧
    containsSub (getTimeout DEFAULT_NEVERHANG_CONFIG
        "SELECT a.id FROM a JOIN b ON a.k=b.k WHERE a.x=1" .degraded none).reason.data
      "JOIN (1.5x)".data = true ∧
    containsSub (getTimeout DEFAULT_NEVERHANG_CONFIG
        "SELECT a.id FROM a JOIN b ON a.k=b.k WHERE a.x=1" .degraded none).reason.data
      "degraded health (0.5x)".data = true := by
  have h : getTimeout DEFAULT_NEVERHANG_CONFIG
      "SELECT a.id FROM a JOIN b ON a.k=b.k WHERE a.x=1" .degraded none =
      { timeout_ms := 7500, reason := "JOIN (1.5x), degraded health (0.5x)" } := by
    have hq : analyzeQuery "SELECT a.id FROM a JOIN b ON a.k=b.k WHERE a.x=1" =
        { has_join := true, has_subquery := false, table_count := 1,
          has_aggregation := false, is_explain_analyze := false } := by
      decide
    simp only [getTimeout, hq, DEFAULT_NEVERHANG_CONFIG]
    norm_num [jsRound]
    rfl
  rw [h]
  exact ⟨rfl, by decide, by decide⟩

/-- C8 counterexample: with adaptive timeouts disabled, the reason
string is "adaptive disabled", not "base timeout" as the claim
states (the timeout itself is the base timeout). -/
theorem adaptive_disabled_reason_cex :
    (getTimeout cfgNoAdaptive "SELECT 1" .healthy none).timeout_ms = 10000 ∧
    (getTimeout cfgNoAdaptive "SELECT 1" .healthy none).reason = "adaptive disabled" ∧
    ¬ (getTimeout cfgNoAdaptive "SELECT 1" .healthy none).reason = "base timeout" := by
  refine ⟨rfl, rfl, ?_⟩
  decide

/-- C8 (amended): for every query and health classification, when the
configuration has `adaptive_timeout` disabled and no user override is
given, `getTimeout` returns exactly `base_timeout_ms` with the reason
string "adaptive disabled". -/
theorem adaptive_disabled_base (cfg : NeverhangConfig) (q : String) (h : HealthStatus)
    (hd : cfg.adaptive_timeout = false) :
    getTimeout cfg q h none =
      { timeout_ms := cfg.base_timeout_ms, reason := "adaptive disabled" } := by
  simp [getTimeout, hd]

/-- C8 witness: the amended theorem at the default configuration with
the adaptive switch off. -/
theorem adaptive_disabled_base_witness :
    cfgNoAdaptive.adaptive_timeout = false ∧
    getTimeout cfgNoAdaptive "SELECT 1" .healthy none =
      { timeout_ms := cfgNoAdaptive.base_timeout_ms, reason := "adaptive disabled" } :=
  ⟨rfl, adaptive_disabled_base cfgNoAdaptive "SELECT 1" .healthy rfl⟩

/-- C9 counterexample: a `NeverhangError` of kind `cancelled` has
`retryable = true` in the source, contradicting the claimed
`retryable = false`. -/
theorem cancelled_retryable_cex :
    ¬ (mkNeverhangError .cancelled "query was cancelled" 5).retryable = false := by
  decide

/-- C9 (amended): `timeout`, `connection_failed`, `pool_exhausted`,
`circuit_open` and `cancelled` errors are retryable, while
`query_error` and `permission_denied` are not — the constructor marks
everything except `permission_denied` and `query_error` retryable. -/
theorem failure_retryability (msg : String) (d : Int) :
    (mkNeverhangError .timeout msg d).retryable = true ∧
    (mkNeverhangError .connection_failed msg d).retryable = true ∧
    (mkNeverhangError .pool_exhausted msg d).retryable = true ∧
    (mkNeverhangError .circuit_open msg d).retryable = true ∧
    (mkNeverhangError .cancelled msg d).retryable = true ∧
    (mkNeverhangError .query_error msg d).retryable = false ∧
    (mkNeverhangError .permission_denied msg d).retryable = false :=
  ⟨rfl, rfl, rfl, rfl, rfl, rfl, rfl⟩

/-- C10: `CircuitBreaker.recordSuccess` mutates nothing unless the
circuit is half-open: on a closed or open circuit the entire state —
classification, failure timestamps, `opened_at`, and the half-open
success counter — is returned unchanged. -/
theorem circuit_recordSuccess_frame (cfg : NeverhangConfig) (s : CircuitBreakerState)
    (h : s.state = .closed ∨ s.state = .opened) :
    recordSuccess cfg s = s := by
  rcases h with h | h <;> simp [recordSuccess, h]

/-- C10 witness: the frame theorem on a closed breaker and on an open
breaker with a pending failure window. -/
theorem circuit_recordSuccess_frame_witness :
    recordSuccess DEFAULT_NEVERHANG_CONFIG initCircuit = initCircuit ∧
    recordSuccess DEFAULT_NEVERHANG_CONFIG
        { state := .opened, failures := [100], opened_at := some 0,
          half_open_successes := 0 } =
      { state := .opened, failures := [100], opened_at := some 0,
        half_open_successes := 0 } :=
  ⟨circuit_recordSuccess_frame _ _ (Or.inl rfl),
   circuit_recordSuccess_frame _ _ (Or.inr rfl)⟩

end Neverhang
